import Mathlib

/-!
Verification of the Car-Dealership order/inventory consistency engine.

The definitions below are a shallow embedding of the relevant request
handlers of the repository:
  - `createOrder`, `updateOrderStatus`, `cancelOrder`
    (backend/src/controllers/orderController.js),
  - `adjustStock`, `createService`, `updateService`
    (backend/src/controllers/authController.js).
The relational store is modelled as association lists keyed by numeric ids.
DECIMAL(10,2) money columns are modelled as exact integers (cents);
DATETIME values used in comparisons are modelled as integer timestamps
(milliseconds), and the timestamp strings interpolated into note fields are
passed in as explicit `nowStr` arguments.  A database transaction that ends
in `rollback()` is modelled by the operation returning `Except.error`
without a state, and the `run*` wrappers keep the pre-call state in that
case.  Item quantities are `Nat`: the route validators
(`isInt (min := 1)` in carRoutes.js / sparePartRoutes.js) admit only
positive integers, and the model-level validation on `order_items.quantity`
is `min 1`.
-/

namespace Dealer

/-- Money amounts (DECIMAL(10,2)), modelled as exact integer cents. -/
abbrev Money := Int

/-- `cars.status` enum. -/
inductive CarStatus
  | AVAILABLE
  | RESERVED
  | SOLD
  | MAINTENANCE
deriving DecidableEq, Repr

/-- `orders.status` enum. -/
inductive OrderStatus
  | PENDING
  | PROCESSING
  | SHIPPED
  | DELIVERED
  | CANCELLED
deriving DecidableEq, Repr

/-- The string form of an order status, as it appears in the JS code
(`order.status` is a string there); needed to embed the literal comparison
`previousStatus === 'RESERVED'` in `updateOrderStatus`. -/
def OrderStatus.asString : OrderStatus → String
  | .PENDING => "PENDING"
  | .PROCESSING => "PROCESSING"
  | .SHIPPED => "SHIPPED"
  | .DELIVERED => "DELIVERED"
  | .CANCELLED => "CANCELLED"

/-- `orders.paymentStatus` enum. -/
inductive PaymentStatus
  | UNPAID
  | PARTIAL
  | PAID
  | REFUNDED
deriving DecidableEq, Repr

/-- `services.status` enum. -/
inductive ServiceStatus
  | SCHEDULED
  | IN_PROGRESS
  | COMPLETED
  | CANCELLED
deriving DecidableEq, Repr

/-- A car row (only the fields the engine logic reads or writes). -/
structure Car where
  status : CarStatus
deriving DecidableEq, Repr

/-- A spare-part row (fields the engine logic reads or writes). -/
structure SparePart where
  name : String
  stock : Int
  minStockLevel : Int
deriving DecidableEq, Repr

/-- An order row (fields the engine logic reads or writes). -/
structure Order where
  userId : Nat
  carId : Option Nat
  orderNumber : String
  totalAmount : Money
  status : OrderStatus
  paymentStatus : PaymentStatus
  trackingNumber : Option String
  notes : Option String
  discountAmount : Money
  taxAmount : Money
  shippingCost : Money
deriving DecidableEq, Repr

/-- An order-item row. -/
structure OrderItem where
  orderId : Nat
  sparePartId : Option Nat
  quantity : Nat
  unitPrice : Money
  totalPrice : Money
  discount : Money
deriving DecidableEq, Repr

/-- A service-type row (only `basePrice` is read by the engine). -/
structure ServiceType where
  basePrice : Money
deriving DecidableEq, Repr

/-- A service-appointment row. -/
structure Service where
  userId : Nat
  carId : Nat
  serviceTypeId : Nat
  scheduledDate : Int
  status : ServiceStatus
  notes : Option String
  technicianNotes : Option String
  estimatedCost : Money
  actualCost : Option Money
  completedDate : Option Int
deriving DecidableEq, Repr

/-- The relational store: association lists keyed by id, plus counters for
freshly generated ids. -/
structure DB where
  users : List Nat
  cars : List (Nat × Car)
  spareParts : List (Nat × SparePart)
  orders : List (Nat × Order)
  orderItems : List OrderItem
  services : List (Nat × Service)
  serviceTypes : List (Nat × ServiceType)
  nextOrderId : Nat
  nextServiceId : Nat
deriving DecidableEq, Repr

/-- Typed errors, one constructor per kind in the spec taxonomy; each site
of the JS code returning a 4xx response maps to one of these. -/
inductive ApiError
  | validationError (message : String)
  | notFoundError (message : String)
  | conflictError (message : String)
  | insufficientStockError (message : String)
  | invalidStateError (message : String)
  | invalidTransitionError (current requested : ServiceStatus)
deriving DecidableEq, Repr

/-- `Model.findByPk id`: first row with the given key. -/
def lookupId (k : Nat) : List (Nat × α) → Option α
  | [] => none
  | (k', v) :: rest => if k' = k then some v else lookupId k rest

/-- `Model.update(..., where: id = k)`: rewrite every row with key `k`. -/
def mapId (k : Nat) (f : α → α) (l : List (Nat × α)) : List (Nat × α) :=
  l.map fun p => if p.1 = k then (p.1, f p.2) else p

/-- Overwrite the row with key `k` by the given value. -/
def setId (k : Nat) (v : α) (l : List (Nat × α)) : List (Nat × α) :=
  mapId k (fun _ => v) l

/-! ## CreateOrder (orderController.js `createOrder`) -/

/-- One entry of the request's `items` array; `discount = 0` is the
destructuring default in the controller, so an absent discount is `none`
and read back with `getD 0`.  Quantities are positive integers by the
route validator `isInt (min := 1)`. -/
structure CreateOrderItemReq where
  sparePartId : Nat
  quantity : Nat
  unitPrice : Money
  discount : Option Money
deriving DecidableEq, Repr

/-- The body of `POST /api/orders` after express-validator ran; the
destructuring defaults of the controller (`status = 'PENDING'`,
`paymentStatus = 'UNPAID'`, `discountAmount = 0`, ...) are applied by the
caller of this model. -/
structure CreateOrderReq where
  userId : Nat
  carId : Option Nat
  items : List CreateOrderItemReq
  totalAmount : Money
  status : OrderStatus
  paymentStatus : PaymentStatus
  notes : Option String
  discountAmount : Money
  taxAmount : Money
  shippingCost : Money
deriving DecidableEq, Repr

/-- The order-item row created for one request item:
`totalPrice = (unitPrice * quantity) - discount` (line 299 of the
controller). -/
def mkOrderItem (orderId : Nat) (it : CreateOrderItemReq) : OrderItem :=
  { orderId := orderId
    sparePartId := some it.sparePartId
    quantity := it.quantity
    unitPrice := it.unitPrice
    totalPrice := it.unitPrice * (it.quantity : Int) - it.discount.getD 0
    discount := it.discount.getD 0 }

/-- The `for (const item of items)` loop of `createOrder`: look the part
up inside the transaction, fail if missing or short on stock, otherwise
create the item row and write back `stock - quantity`. -/
def processItems (orderId : Nat) : List CreateOrderItemReq → DB → Except ApiError DB
  | [], db => .ok db
  | it :: rest, db =>
    match lookupId it.sparePartId db.spareParts with
    | none =>
      .error (.notFoundError
        ("Spare part with ID " ++ toString it.sparePartId ++ " not found"))
    | some sp =>
      if sp.stock < (it.quantity : Int) then
        .error (.insufficientStockError
          ("Not enough stock for spare part " ++ sp.name ++ ". Available: " ++
            toString sp.stock ++ ", Requested: " ++ toString it.quantity))
      else
        processItems orderId rest
          { db with
            orderItems := db.orderItems ++ [mkOrderItem orderId it]
            spareParts :=
              setId it.sparePartId { sp with stock := sp.stock - (it.quantity : Int) }
                db.spareParts }

/-- The order row created by `Order.create` in `createOrder`. -/
def orderRow (req : CreateOrderReq) (orderNumber : String) : Order :=
  { userId := req.userId
    carId := req.carId
    orderNumber := orderNumber
    totalAmount := req.totalAmount
    status := req.status
    paymentStatus := req.paymentStatus
    trackingNumber := none
    notes := req.notes
    discountAmount := req.discountAmount
    taxAmount := req.taxAmount
    shippingCost := req.shippingCost }

/-- Insert the fresh order row under the next free id. -/
def insertOrderRow (req : CreateOrderReq) (orderNumber : String) (db : DB) : DB :=
  { db with
    orders := db.orders ++ [(db.nextOrderId, orderRow req orderNumber)]
    nextOrderId := db.nextOrderId + 1 }

/-- The tail of `createOrder` after the user/car checks passed: create the
order row, process the items, then reserve the car. -/
def createOrderBody (req : CreateOrderReq) (orderNumber : String) (db : DB) :
    Except ApiError (DB × Nat) :=
  match processItems db.nextOrderId req.items (insertOrderRow req orderNumber db) with
  | .error e => .error e
  | .ok db2 =>
    match req.carId with
    | some carId =>
      .ok ({ db2 with
              cars := mapId carId (fun c => { c with status := CarStatus.RESERVED })
                db2.cars }, db.nextOrderId)
    | none => .ok (db2, db.nextOrderId)

/-- `createOrder`: user must exist; if `carId` is given the car must exist
and be AVAILABLE; then the transactional body runs.  An error means the
transaction was rolled back. -/
def createOrder (req : CreateOrderReq) (orderNumber : String) (db : DB) :
    Except ApiError (DB × Nat) :=
  if req.userId ∈ db.users then
    match req.carId with
    | some carId =>
      match lookupId carId db.cars with
      | none => .error (.notFoundError "Car not found")
      | some car =>
        if car.status = CarStatus.AVAILABLE then
          createOrderBody req orderNumber db
        else
          .error (.conflictError "Car is not available for purchase.")
    | none => createOrderBody req orderNumber db
  else
    .error (.notFoundError "User not found")

/-- The post-request state: on error the transaction rolled back, so the
store is unchanged. -/
def runCreateOrder (req : CreateOrderReq) (orderNumber : String) (db : DB) : DB :=
  match createOrder req orderNumber db with
  | .error _ => db
  | .ok (db', _) => db'

/-! ## UpdateOrderStatus (orderController.js `updateOrderStatus`) -/

/-- Body of `PUT /api/orders/:id/status`. -/
structure UpdateOrderStatusReq where
  status : Option OrderStatus
  paymentStatus : Option PaymentStatus
  trackingNumber : Option String
  notes : Option String
deriving DecidableEq, Repr

/-- How the controllers extend a notes column: append a timestamped entry,
keeping the previous content as prefix text. -/
def appendNote (old : Option String) (nowStr entry : String) : String :=
  match old with
  | some n => n ++ "\n\n" ++ nowStr ++ ": " ++ entry
  | none => nowStr ++ ": " ++ entry

/-- `SparePart.increment({stock: item.quantity}, where: id)` applied to
every item of one order (the restock loops of `updateOrderStatus` and
`cancelOrder`; the extra `item.sparePart` truthiness check of
`cancelOrder` is a no-op difference, because an UPDATE on a missing row
changes nothing either way). -/
def bumpParts (items : List OrderItem) (parts : List (Nat × SparePart)) :
    List (Nat × SparePart) :=
  items.foldl
    (fun ps it =>
      match it.sparePartId with
      | some pid =>
        mapId pid (fun sp => { sp with stock := sp.stock + (it.quantity : Int) }) ps
      | none => ps)
    parts

/-- Restore the spare-part stock consumed by order `orderId`. -/
def restockOrderItems (orderId : Nat) (db : DB) : DB :=
  { db with
    spareParts :=
      bumpParts (db.orderItems.filter fun it => it.orderId = orderId) db.spareParts }

/-- The store-level side effects of `updateOrderStatus` when a status `st`
differing from the order's current one is requested: the car-status
update (whose CANCELLED branch is guarded by
`previousStatus === 'RESERVED'`, comparing the ORDER's previous status
string with a CAR status value) and the CANCELLED restock. -/
def orderStatusSideEffects (id : Nat) (st : OrderStatus) (order : Order) (db : DB) :
    DB :=
  let withCar :=
    match order.carId with
    | some carId =>
      let carStatus : Option CarStatus :=
        if st = OrderStatus.DELIVERED then some CarStatus.SOLD
        else if st = OrderStatus.CANCELLED ∧ order.status.asString = "RESERVED" then
          some CarStatus.AVAILABLE
        else none
      match carStatus with
      | some cs =>
        { db with cars := mapId carId (fun c => { c with status := cs }) db.cars }
      | none => db
    | none => db
  if st = OrderStatus.CANCELLED ∧
      (order.status = OrderStatus.PENDING ∨ order.status = OrderStatus.PROCESSING) then
    restockOrderItems id withCar
  else withCar

/-- The order row written at the end of `updateOrderStatus`: the columns
present in the request (and different, for the two statuses) are updated,
notes are appended with a timestamp. -/
def updatedOrderRow (req : UpdateOrderStatusReq) (nowStr : String) (order : Order) :
    Order :=
  { order with
    status :=
      match req.status with
      | some st => if st ≠ order.status then st else order.status
      | none => order.status
    paymentStatus :=
      match req.paymentStatus with
      | some ps => if ps ≠ order.paymentStatus then ps else order.paymentStatus
      | none => order.paymentStatus
    trackingNumber :=
      match req.trackingNumber with
      | some t => some t
      | none => order.trackingNumber
    notes :=
      match req.notes with
      | some n => some (appendNote order.notes nowStr n)
      | none => order.notes }

/-- `updateOrderStatus`: look the order up; when a new status differing
from the current one is supplied, run the side effects; finally write the
changed columns of the order row. -/
def updateOrderStatus (id : Nat) (req : UpdateOrderStatusReq) (nowStr : String)
    (db : DB) : Except ApiError DB :=
  match lookupId id db.orders with
  | none => .error (.notFoundError "Order not found")
  | some order =>
    let db1 :=
      match req.status with
      | some st =>
        if st ≠ order.status then orderStatusSideEffects id st order db else db
      | none => db
    .ok { db1 with orders := setId id (updatedOrderRow req nowStr order) db1.orders }

/-- Post-request state of `updateOrderStatus`. -/
def runUpdateOrderStatus (id : Nat) (req : UpdateOrderStatusReq) (nowStr : String)
    (db : DB) : DB :=
  match updateOrderStatus id req nowStr db with
  | .error _ => db
  | .ok db' => db'

/-! ## CancelOrder (orderController.js `cancelOrder`) -/

/-- `cancelOrder`: refuse DELIVERED/CANCELLED orders; otherwise set status
CANCELLED with a timestamped cancellation note, set the car (if the order
references one and it exists) to AVAILABLE unconditionally, and restore
every item's stock. -/
def cancelOrder (id : Nat) (reason : Option String) (nowStr : String) (db : DB) :
    Except ApiError DB :=
  match lookupId id db.orders with
  | none => .error (.notFoundError "Order not found")
  | some order =>
    if order.status = OrderStatus.DELIVERED ∨ order.status = OrderStatus.CANCELLED then
      .error (.invalidStateError
        ("Cannot cancel an order that is already " ++ order.status.asString))
    else
      let cancelNote :=
        "CANCELLED on " ++ nowStr ++ ": " ++ reason.getD "No reason provided"
      let newNotes :=
        match order.notes with
        | some n => n ++ "\n\n" ++ cancelNote
        | none => cancelNote
      let order' := { order with status := OrderStatus.CANCELLED, notes := some newNotes }
      let db1 := { db with orders := setId id order' db.orders }
      let db2 :=
        match order.carId with
        | some carId =>
          match lookupId carId db1.cars with
          | some _ =>
            { db1 with
              cars := mapId carId (fun c => { c with status := CarStatus.AVAILABLE })
                db1.cars }
          | none => db1
        | none => db1
      .ok (restockOrderItems id db2)

/-- Post-request state of `cancelOrder`. -/
def runCancelOrder (id : Nat) (reason : Option String) (nowStr : String) (db : DB) : DB :=
  match cancelOrder id reason nowStr db with
  | .error _ => db
  | .ok db' => db'

/-! ## AdjustStock (authController.js `adjustStock`) -/

inductive StockOperation
  | add
  | subtract
deriving DecidableEq, Repr

/-- `adjustStock`: positive quantity required, part must exist, subtract
must not underflow; the new stock value is written back. -/
def adjustStock (id : Nat) (quantity : Int) (operation : StockOperation) (db : DB) :
    Except ApiError DB :=
  if quantity ≤ 0 then
    .error (.validationError "Quantity must be a positive number")
  else
    match lookupId id db.spareParts with
    | none => .error (.notFoundError "Spare part not found")
    | some sp =>
      match operation with
      | .add =>
        .ok { db with
              spareParts := setId id { sp with stock := sp.stock + quantity } db.spareParts }
      | .subtract =>
        if sp.stock < quantity then
          .error (.insufficientStockError
            ("Not enough stock. Current stock: " ++ toString sp.stock))
        else
          .ok { db with
                spareParts := setId id { sp with stock := sp.stock - quantity } db.spareParts }

/-- Post-request state of `adjustStock`. -/
def runAdjustStock (id : Nat) (quantity : Int) (operation : StockOperation) (db : DB) : DB :=
  match adjustStock id quantity operation db with
  | .error _ => db
  | .ok db' => db'

/-! ## Service scheduler (authController.js `createService` / `updateService`) -/

/-- The ±2-hour conflict window, in milliseconds. -/
def TWO_HOURS_MS : Int := 2 * 60 * 60 * 1000

/-- An existing appointment conflicts with a requested time `t` when its
`scheduledDate` lies in the inclusive window `[t - 2h, t + 2h]` and its
status is SCHEDULED or IN_PROGRESS.  The source query has no scoping by
car, user or technician. -/
def conflictsAt (t : Int) (sv : Service) : Prop :=
  (t - TWO_HOURS_MS ≤ sv.scheduledDate ∧ sv.scheduledDate ≤ t + TWO_HOURS_MS) ∧
  (sv.status = ServiceStatus.SCHEDULED ∨ sv.status = ServiceStatus.IN_PROGRESS)

instance (t : Int) (sv : Service) : Decidable (conflictsAt t sv) := by
  unfold conflictsAt
  infer_instance

/-- Body of `POST /api/services` after express-validator ran; the route
validator admits any of the four statuses (`isIn` on the full enum), and
the controller destructures `status = 'SCHEDULED'` as a default. -/
structure CreateServiceReq where
  userId : Nat
  carId : Nat
  serviceTypeId : Nat
  scheduledDate : Int
  notes : Option String
  status : Option ServiceStatus
  estimatedCost : Option Money
deriving DecidableEq, Repr

/-- `createService`: user, car and service type must exist; the scheduled
date check is `scheduledDateTime < new Date()` (strict, so a date equal to
`now` passes); a global ±2-hour conflict with any SCHEDULED/IN_PROGRESS
appointment is refused; `estimatedCost || serviceType.basePrice` uses JS
truthiness, so a supplied cost of 0 also falls back to the base price. -/
def createService (req : CreateServiceReq) (now : Int) (db : DB) :
    Except ApiError (DB × Nat) :=
  if req.userId ∈ db.users then
    match lookupId req.carId db.cars with
    | none => .error (.notFoundError "Car not found")
    | some _ =>
      match lookupId req.serviceTypeId db.serviceTypes with
      | none => .error (.notFoundError "Service type not found")
      | some serviceType =>
        if req.scheduledDate < now then
          .error (.validationError "Scheduled date must be in the future")
        else if db.services.any (fun p => conflictsAt req.scheduledDate p.2) then
          .error (.conflictError
            "There is already a service scheduled around this time.")
        else
          let sid := db.nextServiceId
          let sv : Service :=
            { userId := req.userId
              carId := req.carId
              serviceTypeId := req.serviceTypeId
              scheduledDate := req.scheduledDate
              status := req.status.getD ServiceStatus.SCHEDULED
              notes := req.notes
              technicianNotes := none
              estimatedCost :=
                match req.estimatedCost with
                | some c => if c = 0 then serviceType.basePrice else c
                | none => serviceType.basePrice
              actualCost := none
              completedDate := none }
          .ok ({ db with
                  services := db.services ++ [(sid, sv)]
                  nextServiceId := sid + 1 }, sid)
  else
    .error (.notFoundError "User not found")

/-- Body of `PUT /api/services/:id`. -/
structure UpdateServiceReq where
  scheduledDate : Option Int
  status : Option ServiceStatus
  notes : Option String
  completedDate : Option Int
  actualCost : Option Money
  technicianNotes : Option String
  serviceTypeId : Option Nat
deriving DecidableEq, Repr

/-- The `validTransitions` table of `updateService`:
SCHEDULED→{IN_PROGRESS, CANCELLED}; IN_PROGRESS→{COMPLETED, CANCELLED};
COMPLETED and CANCELLED are terminal. -/
def validTransitions : ServiceStatus → List ServiceStatus
  | .SCHEDULED => [.IN_PROGRESS, .CANCELLED]
  | .IN_PROGRESS => [.COMPLETED, .CANCELLED]
  | .COMPLETED => []
  | .CANCELLED => []

/-- The row update applied at the end of a successful `updateService`. -/
def applyServiceUpdate (req : UpdateServiceReq) (now : Int) (nowStr : String)
    (basePriceOfNewType : Option Money) (sv : Service) : Service :=
  { sv with
    scheduledDate := req.scheduledDate.getD sv.scheduledDate
    serviceTypeId := req.serviceTypeId.getD sv.serviceTypeId
    estimatedCost :=
      match basePriceOfNewType with
      | some bp => if sv.estimatedCost = 0 then bp else sv.estimatedCost
      | none => sv.estimatedCost
    status := req.status.getD sv.status
    completedDate :=
      match req.completedDate with
      | some d => some d
      | none =>
        if req.status = some ServiceStatus.COMPLETED then some now else sv.completedDate
    actualCost :=
      match req.actualCost with
      | some c => some c
      | none => sv.actualCost
    notes :=
      match req.notes with
      | some n => some (appendNote sv.notes nowStr n)
      | none => sv.notes
    technicianNotes :=
      match req.technicianNotes with
      | some n => some (appendNote sv.technicianNotes nowStr n)
      | none => sv.technicianNotes }

/-- `updateService`: a supplied scheduled date is re-validated (past date
and ±2-hour conflict, both only while the service is still SCHEDULED, the
conflict query excluding the service itself); a supplied service type must
exist; a supplied status must be in the `validTransitions` table of the
current status, otherwise the request fails naming the current and the
requested state. -/
def updateService (id : Nat) (req : UpdateServiceReq) (now : Int) (nowStr : String)
    (db : DB) : Except ApiError DB :=
  match lookupId id db.services with
  | none => .error (.notFoundError "Service not found")
  | some sv =>
    let schedPast : Bool :=
      match req.scheduledDate with
      | some d => decide (d < now) && decide (sv.status = ServiceStatus.SCHEDULED)
      | none => false
    let schedConflict : Bool :=
      match req.scheduledDate with
      | some d =>
        decide (sv.status = ServiceStatus.SCHEDULED) &&
          db.services.any (fun p => decide (p.1 ≠ id) && decide (conflictsAt d p.2))
      | none => false
    let typeMissing : Bool :=
      match req.serviceTypeId with
      | some tid => decide (lookupId tid db.serviceTypes = none)
      | none => false
    if schedPast then
      .error (.validationError "Scheduled date must be in the future for new appointments")
    else if schedConflict then
      .error (.conflictError "There is already a service scheduled around this time.")
    else if typeMissing then
      .error (.notFoundError "Service type not found")
    else
      let basePriceOfNewType : Option Money :=
        match req.serviceTypeId with
        | some tid => (lookupId tid db.serviceTypes).map ServiceType.basePrice
        | none => none
      match req.status with
      | some st =>
        if st ∈ validTransitions sv.status then
          .ok { db with
                services :=
                  setId id (applyServiceUpdate req now nowStr basePriceOfNewType sv)
                    db.services }
        else
          .error (.invalidTransitionError sv.status st)
      | none =>
        .ok { db with
              services :=
                setId id (applyServiceUpdate req now nowStr basePriceOfNewType sv)
                  db.services }

/-- Post-request state of `updateService`. -/
def runUpdateService (id : Nat) (req : UpdateServiceReq) (now : Int) (nowStr : String)
    (db : DB) : DB :=
  match updateService id req now nowStr db with
  | .error _ => db
  | .ok db' => db'

/-! ## The engine operations as one step function (for the stock invariant) -/

/-- One engine operation touching the inventory, as listed by the spec's
stock invariant. -/
inductive EngineOp
  | createOrder (req : CreateOrderReq) (orderNumber : String)
  | updateOrderStatus (id : Nat) (req : UpdateOrderStatusReq) (nowStr : String)
  | cancelOrder (id : Nat) (reason : Option String) (nowStr : String)
  | adjustStock (id : Nat) (quantity : Int) (operation : StockOperation)

/-- Apply one engine operation; a failing operation rolls its transaction
back and leaves the store unchanged. -/
def applyOp : EngineOp → DB → DB
  | .createOrder req orderNumber, db => runCreateOrder req orderNumber db
  | .updateOrderStatus id req nowStr, db => runUpdateOrderStatus id req nowStr db
  | .cancelOrder id reason nowStr, db => runCancelOrder id reason nowStr db
  | .adjustStock id quantity operation, db => runAdjustStock id quantity operation db

/-! ## Specification predicates -/

/-- Every spare-part row of a list has non-negative stock. -/
def partsNonneg (l : List (Nat × SparePart)) : Prop :=
  ∀ p ∈ l, 0 ≤ p.2.stock

/-- Every spare part of the store has non-negative stock. -/
def stocksNonneg (db : DB) : Prop :=
  partsNonneg db.spareParts

/-- Pointwise comparison of two spare-part tables with the same keys:
every part of `l1` has at most the stock it has in `l2`. -/
def stockRel : Option SparePart → Option SparePart → Prop
  | none, none => True
  | some a, some b => a.stock ≤ b.stock
  | _, _ => False

/-- `l1` is `l2` with some stock consumed: same keys, pointwise lower
stock. -/
def partsLE (l1 l2 : List (Nat × SparePart)) : Prop :=
  ∀ pid, stockRel (lookupId pid l1) (lookupId pid l2)

/-- The failure conditions claimed for `CreateOrder`: a missing user, a
missing or non-AVAILABLE car (when a car is referenced), a missing spare
part, or an item quantity exceeding that part's (pre-call) stock. -/
def createOrderFailure (req : CreateOrderReq) (db : DB) : Prop :=
  req.userId ∉ db.users ∨
  (∃ cid, req.carId = some cid ∧ lookupId cid db.cars = none) ∨
  (∃ cid car, req.carId = some cid ∧ lookupId cid db.cars = some car ∧
    car.status ≠ CarStatus.AVAILABLE) ∨
  (∃ it ∈ req.items, lookupId it.sparePartId db.spareParts = none) ∨
  (∃ it ∈ req.items, ∃ sp, lookupId it.sparePartId db.spareParts = some sp ∧
    sp.stock < (it.quantity : Int))

/-- Total quantity that the items of a list book against part `pid`. -/
def itemsQty (pid : Nat) : List OrderItem → Int
  | [] => 0
  | it :: rest =>
    (if it.sparePartId = some pid then (it.quantity : Int) else 0) + itemsQty pid rest

/-- Status of the appointment created by `createService`, when it
succeeds. -/
def createdServiceStatus (req : CreateServiceReq) (now : Int) (db : DB) :
    Option ServiceStatus :=
  match createService req now db with
  | .ok (db', sid) => (lookupId sid db'.services).map Service.status
  | .error _ => none

/-! ## Concrete stores and requests used by witnesses and counterexamples -/

/-- A plain order row used to build concrete stores. -/
def baseOrder : Order :=
  { userId := 1, carId := none, orderNumber := "ORD-00000000-000", totalAmount := 100
    status := OrderStatus.PENDING, paymentStatus := PaymentStatus.UNPAID
    trackingNumber := none, notes := none
    discountAmount := 0, taxAmount := 0, shippingCost := 0 }

/-- An empty store. -/
def emptyDB : DB :=
  { users := [], cars := [], spareParts := [], orders := [], orderItems := []
    services := [], serviceTypes := [], nextOrderId := 1, nextServiceId := 1 }

/-- C1 witness input: one user, one part with stock 2, an order request
asking for 3 of it. -/
def dbW1 : DB :=
  { emptyDB with users := [1], spareParts := [(7, ⟨"Oil Filter", 2, 5⟩)] }

/-- C1 witness request. -/
def reqW1 : CreateOrderReq :=
  { userId := 1, carId := none, items := [⟨7, 3, 10, none⟩], totalAmount := 30
    status := OrderStatus.PENDING, paymentStatus := PaymentStatus.UNPAID
    notes := none, discountAmount := 0, taxAmount := 0, shippingCost := 0 }

/-- C2 failing input: order 1 is PENDING and references car 1, which is
RESERVED (it was reserved by this very order). -/
def dbC2 : DB :=
  { emptyDB with
    users := [1]
    cars := [(1, ⟨CarStatus.RESERVED⟩)]
    orders := [(1, { baseOrder with carId := some 1 })]
    nextOrderId := 2 }

/-- C2 failing input, second part: order 2 is PENDING and references car
1, which is in MAINTENANCE. -/
def dbC2m : DB :=
  { emptyDB with
    users := [1]
    cars := [(1, ⟨CarStatus.MAINTENANCE⟩)]
    orders := [(2, { baseOrder with carId := some 1 })]
    nextOrderId := 3 }

/-- C3 failing input: order 1 is PENDING, references RESERVED car 1 and
consumed 3 units of part 7 (stock now 2). -/
def dbC3 : DB :=
  { emptyDB with
    users := [1]
    cars := [(1, ⟨CarStatus.RESERVED⟩)]
    spareParts := [(7, ⟨"Brake Pad Set", 2, 5⟩)]
    orders := [(1, { baseOrder with carId := some 1 })]
    orderItems := [{ orderId := 1, sparePartId := some 7, quantity := 3,
                     unitPrice := 10, totalPrice := 30, discount := 0 }]
    nextOrderId := 2 }

/-- C4 witness store: one part with stock 3. -/
def dbW4 : DB :=
  { emptyDB with spareParts := [(5, ⟨"Air Filter", 3, 5⟩)] }

/-- C4 witness operations: subtract 2, then add 1. -/
def opsW4 : List EngineOp :=
  [EngineOp.adjustStock 5 2 StockOperation.subtract,
   EngineOp.adjustStock 5 1 StockOperation.add]

/-- C5 witness store: order 9 is PROCESSING, references RESERVED car 3 and
consumed 2 units of part 4 (stock now 1). -/
def dbW5 : DB :=
  { emptyDB with
    users := [1]
    cars := [(3, ⟨CarStatus.RESERVED⟩)]
    spareParts := [(4, ⟨"Spark Plug Set", 1, 5⟩)]
    orders := [(9, { baseOrder with carId := some 3, status := OrderStatus.PROCESSING })]
    orderItems := [{ orderId := 9, sparePartId := some 4, quantity := 2,
                     unitPrice := 45, totalPrice := 90, discount := 0 }]
    nextOrderId := 10 }

/-- C5 witness, failure side: order 8 is already DELIVERED. -/
def dbW5d : DB :=
  { emptyDB with
    users := [1]
    orders := [(8, { baseOrder with status := OrderStatus.DELIVERED })]
    nextOrderId := 9 }

/-- C6 witness store: order 6 is already DELIVERED and references SOLD
car 2; part 11 has stock 4. -/
def dbW6 : DB :=
  { emptyDB with
    users := [1]
    cars := [(2, ⟨CarStatus.SOLD⟩)]
    spareParts := [(11, ⟨"Oil Filter", 4, 5⟩)]
    orders := [(6, { baseOrder with carId := some 2, status := OrderStatus.DELIVERED })]
    orderItems := [{ orderId := 6, sparePartId := some 11, quantity := 1,
                     unitPrice := 15, totalPrice := 15, discount := 0 }]
    nextOrderId := 7 }

/-- A store with one user, one AVAILABLE car, one service type — the
references `createService` checks. -/
def dbSvc : DB :=
  { emptyDB with
    users := [1]
    cars := [(1, ⟨CarStatus.AVAILABLE⟩)]
    serviceTypes := [(1, ⟨100⟩)] }

/-- C7 counterexample request: creation with `status: COMPLETED`, which
the route validator admits. -/
def reqC7x : CreateServiceReq :=
  { userId := 1, carId := 1, serviceTypeId := 1, scheduledDate := 1000
    notes := none, status := some ServiceStatus.COMPLETED, estimatedCost := none }

/-- A SCHEDULED appointment at time `t`, used in concrete stores. -/
def svcRow (t : Int) : Service :=
  { userId := 1, carId := 1, serviceTypeId := 1, scheduledDate := t
    status := ServiceStatus.SCHEDULED, notes := none, technicianNotes := none
    estimatedCost := 100, actualCost := none, completedDate := none }

/-- C7 witness store for the transition side: service 2 is SCHEDULED. -/
def dbW7 : DB :=
  { dbSvc with services := [(2, svcRow 5000)], nextServiceId := 3 }

/-- C7 witness request: a pure status change. -/
def reqW7 : UpdateServiceReq :=
  { scheduledDate := none, status := some ServiceStatus.IN_PROGRESS, notes := none
    completedDate := none, actualCost := none, technicianNotes := none
    serviceTypeId := none }

/-- C7 witness request for the refused side: COMPLETED directly from
SCHEDULED. -/
def reqW7bad : UpdateServiceReq :=
  { reqW7 with status := some ServiceStatus.COMPLETED }

/-- C7 witness request for the creation side: no status supplied. -/
def reqW7c : CreateServiceReq :=
  { userId := 1, carId := 1, serviceTypeId := 1, scheduledDate := 2000
    notes := none, status := none, estimatedCost := none }

/-- The store produced by the C7 creation-side witness call. -/
def dbW7c : DB :=
  match createService reqW7c 0 dbSvc with
  | .ok (d, _) => d
  | .error _ => dbSvc

/-- C8 counterexample request: `scheduledDate` exactly equal to `now`
(500). -/
def reqC8x : CreateServiceReq :=
  { userId := 1, carId := 1, serviceTypeId := 1, scheduledDate := 500
    notes := none, status := none, estimatedCost := none }

/-- C8 witness request with a past date. -/
def reqW8past : CreateServiceReq :=
  { userId := 1, carId := 1, serviceTypeId := 1, scheduledDate := -5
    notes := none, status := none, estimatedCost := none }

/-- C8 witness request 1000 ms away from the existing appointment. -/
def reqW8conf : CreateServiceReq :=
  { userId := 1, carId := 1, serviceTypeId := 1, scheduledDate := 9000
    notes := none, status := none, estimatedCost := none }

/-- C8 witness request strictly more than two hours after the existing
appointment. -/
def reqW8free : CreateServiceReq :=
  { userId := 1, carId := 1, serviceTypeId := 1, scheduledDate := 17200001
    notes := none, status := none, estimatedCost := none }

/-- C8 witness store: an existing SCHEDULED service at time 10000. -/
def dbW8 : DB :=
  { dbSvc with services := [(4, svcRow 10000)], nextServiceId := 5 }

/-- C9 witness store: a user and a part with ample stock. -/
def dbW9 : DB :=
  { emptyDB with users := [2], spareParts := [(3, ⟨"Air Filter", 40, 5⟩)] }

/-- C9 witness request: two items, one with an explicit discount. -/
def reqW9 : CreateOrderReq :=
  { userId := 2, carId := none
    items := [⟨3, 2, 25, some 5⟩, ⟨3, 1, 25, none⟩], totalAmount := 70
    status := OrderStatus.PENDING, paymentStatus := PaymentStatus.UNPAID
    notes := none, discountAmount := 0, taxAmount := 0, shippingCost := 0 }

/-- C10 witness store: order 5 is PENDING with notes and an item on part
6. -/
def dbW10 : DB :=
  { emptyDB with
    users := [1]
    cars := [(4, ⟨CarStatus.RESERVED⟩)]
    spareParts := [(6, ⟨"Brake Pad Set", 9, 5⟩)]
    orders := [(5, { baseOrder with carId := some 4, notes := some "first note" })]
    orderItems := [{ orderId := 5, sparePartId := some 6, quantity := 2,
                     unitPrice := 90, totalPrice := 180, discount := 0 }]
    nextOrderId := 6 }

/-- C10 witness request: ship the order, pay it, track it, note it. -/
def reqW10 : UpdateOrderStatusReq :=
  { status := some OrderStatus.SHIPPED, paymentStatus := some PaymentStatus.PAID
    trackingNumber := some "TRK-1", notes := some "on its way" }

/-! ## Lemmas about the association-list primitives -/

theorem lookupId_mem {k : Nat} {v : α} {l : List (Nat × α)}
    (h : lookupId k l = some v) : (k, v) ∈ l := by
  induction l with
  | nil => simp [lookupId] at h
  | cons p rest ih =>
    obtain ⟨k', v'⟩ := p
    by_cases hk : k' = k
    · subst hk
      simp [lookupId] at h
      subst h
      exact List.mem_cons_self ..
    · simp [lookupId, hk] at h
      exact List.mem_cons_of_mem _ (ih h)

theorem mapId_nil (k : Nat) (f : α → α) : mapId k f [] = [] := rfl

theorem mapId_cons (k k' : Nat) (v : α) (f : α → α) (rest : List (Nat × α)) :
    mapId k f ((k', v) :: rest) =
      (if k' = k then (k', f v) else (k', v)) :: mapId k f rest := by
  by_cases h : k' = k <;> simp [mapId, h]

theorem lookupId_mapId_self (k : Nat) (f : α → α) (l : List (Nat × α)) :
    lookupId k (mapId k f l) = (lookupId k l).map f := by
  induction l with
  | nil => simp [lookupId, mapId_nil]
  | cons p rest ih =>
    obtain ⟨k', v'⟩ := p
    rw [mapId_cons]
    by_cases hk : k' = k
    · rw [if_pos hk]
      simp [lookupId, hk]
    · rw [if_neg hk]
      simp [lookupId, hk, ih]

theorem lookupId_mapId_ne {k' : Nat} (k : Nat) (hne : k' ≠ k) (f : α → α)
    (l : List (Nat × α)) : lookupId k (mapId k' f l) = lookupId k l := by
  induction l with
  | nil => simp [lookupId, mapId_nil]
  | cons p rest ih =>
    obtain ⟨k'', v''⟩ := p
    rw [mapId_cons]
    by_cases hk2 : k'' = k'
    · rw [if_pos hk2]
      have hne2 : k'' ≠ k := fun h => hne (hk2 ▸ h)
      simp [lookupId, hne2, ih]
    · rw [if_neg hk2]
      by_cases hk : k'' = k
      · simp [lookupId, hk]
      · simp [lookupId, hk, ih]

theorem lookupId_setId_self (k : Nat) (v : α) (l : List (Nat × α)) :
    lookupId k (setId k v l) = (lookupId k l).map fun _ => v :=
  lookupId_mapId_self k _ l

theorem lookupId_setId_ne {k' : Nat} (k : Nat) (hne : k' ≠ k) (v : α)
    (l : List (Nat × α)) : lookupId k (setId k' v l) = lookupId k l :=
  lookupId_mapId_ne k hne _ l

/-! ## Lemmas about stock tables -/

theorem stockRel_refl (o : Option SparePart) : stockRel o o := by
  cases o <;> simp [stockRel]

theorem stockRel_trans {a b c : Option SparePart} (h1 : stockRel a b)
    (h2 : stockRel b c) : stockRel a c := by
  cases a <;> cases b <;> cases c <;> (simp_all [stockRel]; try omega)

theorem partsLE_refl (l : List (Nat × SparePart)) : partsLE l l :=
  fun _ => stockRel_refl _

theorem partsLE_trans {l1 l2 l3 : List (Nat × SparePart)} (h1 : partsLE l1 l2)
    (h2 : partsLE l2 l3) : partsLE l1 l3 :=
  fun pid => stockRel_trans (h1 pid) (h2 pid)

theorem partsLE_setId {l : List (Nat × SparePart)} {k : Nat} {sp sp' : SparePart}
    (hl : lookupId k l = some sp) (hle : sp'.stock ≤ sp.stock) :
    partsLE (setId k sp' l) l := by
  intro pid
  by_cases h : k = pid
  · subst h
    rw [lookupId_setId_self, hl]
    simpa [stockRel] using hle
  · rw [lookupId_setId_ne pid h]
    exact stockRel_refl _

theorem partsNonneg_setId {l : List (Nat × SparePart)} {k : Nat} {v : SparePart}
    (h : partsNonneg l) (hv : 0 ≤ v.stock) : partsNonneg (setId k v l) := by
  intro p hp
  simp only [setId, mapId, List.mem_map] at hp
  obtain ⟨q, hq, hpq⟩ := hp
  by_cases hk : q.1 = k
  · rw [if_pos hk] at hpq
    rw [← hpq]
    exact hv
  · rw [if_neg hk] at hpq
    rw [← hpq]
    exact h q hq

theorem partsNonneg_mapId {l : List (Nat × SparePart)} {k : Nat}
    {f : SparePart → SparePart} (h : partsNonneg l)
    (hf : ∀ sp, 0 ≤ sp.stock → 0 ≤ (f sp).stock) : partsNonneg (mapId k f l) := by
  intro p hp
  simp only [mapId, List.mem_map] at hp
  obtain ⟨q, hq, hpq⟩ := hp
  by_cases hk : q.1 = k
  · rw [if_pos hk] at hpq
    rw [← hpq]
    exact hf _ (h q hq)
  · rw [if_neg hk] at hpq
    rw [← hpq]
    exact h q hq

theorem partsNonneg_bumpParts :
    ∀ (items : List OrderItem) (l : List (Nat × SparePart)),
      partsNonneg l → partsNonneg (bumpParts items l)
  | [], _, h => h
  | it :: rest, l, h => by
    have hstep : partsNonneg
        (match it.sparePartId with
          | some pid =>
            mapId pid (fun sp => { sp with stock := sp.stock + (it.quantity : Int) }) l
          | none => l) := by
      cases it.sparePartId with
      | none => exact h
      | some pid =>
        exact partsNonneg_mapId h fun sp hsp =>
          add_nonneg hsp (Int.natCast_nonneg _)
    exact partsNonneg_bumpParts rest _ hstep

theorem bumpParts_nil (l : List (Nat × SparePart)) : bumpParts [] l = l := rfl

theorem lookupId_bumpParts (pid : Nat) :
    ∀ (items : List OrderItem) (parts : List (Nat × SparePart)),
      lookupId pid (bumpParts items parts) =
        (lookupId pid parts).map fun sp =>
          { sp with stock := sp.stock + itemsQty pid items }
  | [], parts => by
    cases h : lookupId pid parts with
    | none => simp [bumpParts_nil, h]
    | some sp =>
      simp only [bumpParts_nil, h, Option.map_some, itemsQty]
      cases sp
      simp
  | it :: rest, parts => by
    cases hsp : it.sparePartId with
    | none =>
      have hstep : bumpParts (it :: rest) parts = bumpParts rest parts := by
        simp [bumpParts, hsp]
      rw [hstep, lookupId_bumpParts pid rest parts]
      simp [itemsQty, hsp]
    | some pid' =>
      have hstep : bumpParts (it :: rest) parts =
          bumpParts rest
            (mapId pid' (fun sp => { sp with stock := sp.stock + (it.quantity : Int) })
              parts) := by
        simp [bumpParts, hsp]
      rw [hstep, lookupId_bumpParts pid rest _]
      by_cases hpid : pid' = pid
      · subst hpid
        rw [lookupId_mapId_self]
        cases h : lookupId pid' parts with
        | none => simp
        | some sp =>
          simp only [Option.map_some, Option.some.injEq, itemsQty, hsp, if_pos rfl]
          cases sp
          simp [add_assoc]
      · rw [lookupId_mapId_ne pid hpid]
        cases h : lookupId pid parts with
        | none => simp
        | some sp =>
          have hne : ¬(some pid' = some pid) := by simp [hpid]
          simp [itemsQty, hsp, hne]

/-! ## Lemmas about `processItems` and `createOrder` -/

theorem processItems_ok_spec {oid : Nat} :
    ∀ (items : List CreateOrderItemReq) (db db' : DB),
      processItems oid items db = .ok db' →
      partsLE db'.spareParts db.spareParts ∧
      (∀ it ∈ items, ∃ sp, lookupId it.sparePartId db.spareParts = some sp ∧
        (it.quantity : Int) ≤ sp.stock) ∧
      ∃ newItems, db'.orderItems = db.orderItems ++ newItems ∧
        ∀ x ∈ newItems, x.orderId = oid ∧
          x.totalPrice = x.unitPrice * (x.quantity : Int) - x.discount
  | [], db, db', h => by
    simp only [processItems, Except.ok.injEq] at h
    subst h
    exact ⟨partsLE_refl _, by simp, [], by simp, by simp⟩
  | it :: rest, db, db', h => by
    simp only [processItems] at h
    cases hl : lookupId it.sparePartId db.spareParts with
    | none =>
      rw [hl] at h
      exact absurd h (by simp)
    | some sp =>
      rw [hl] at h
      dsimp only at h
      by_cases hs : sp.stock < (it.quantity : Int)
      · rw [if_pos hs] at h
        exact absurd h (by simp)
      · rw [if_neg hs] at h
        obtain ⟨hLE, hbounds, newItems, hitems, hprops⟩ :=
          processItems_ok_spec rest _ db' h
        have hstepLE : partsLE
            (setId it.sparePartId { sp with stock := sp.stock - (it.quantity : Int) }
              db.spareParts)
            db.spareParts :=
          partsLE_setId hl (sub_le_self _ (Int.natCast_nonneg _))
        refine ⟨partsLE_trans hLE hstepLE, ?_, mkOrderItem oid it :: newItems, ?_, ?_⟩
        · intro x hx
          rcases List.mem_cons.mp hx with hx | hx
          · subst hx
            exact ⟨sp, hl, not_lt.mp hs⟩
          · have hbounds' := hbounds x hx
            dsimp only at hbounds'
            obtain ⟨spn, hln, hqn⟩ := hbounds'
            have hrel := hstepLE x.sparePartId
            rw [hln] at hrel
            cases hdb : lookupId x.sparePartId db.spareParts with
            | none =>
              rw [hdb] at hrel
              simp [stockRel] at hrel
            | some spo =>
              rw [hdb] at hrel
              simp only [stockRel] at hrel
              exact ⟨spo, rfl, le_trans hqn hrel⟩
        · rw [hitems]
          simp
        · intro x hx
          rcases List.mem_cons.mp hx with hx | hx
          · subst hx
            exact ⟨rfl, rfl⟩
          · exact hprops x hx

theorem processItems_ok_partsNonneg {oid : Nat} :
    ∀ (items : List CreateOrderItemReq) (db db' : DB),
      processItems oid items db = .ok db' → partsNonneg db.spareParts →
      partsNonneg db'.spareParts
  | [], db, db', h, hn => by
    simp only [processItems, Except.ok.injEq] at h
    subst h
    exact hn
  | it :: rest, db, db', h, hn => by
    simp only [processItems] at h
    cases hl : lookupId it.sparePartId db.spareParts with
    | none =>
      rw [hl] at h
      exact absurd h (by simp)
    | some sp =>
      rw [hl] at h
      dsimp only at h
      by_cases hs : sp.stock < (it.quantity : Int)
      · rw [if_pos hs] at h
        exact absurd h (by simp)
      · rw [if_neg hs] at h
        exact processItems_ok_partsNonneg rest _ db' h
          (partsNonneg_setId hn (sub_nonneg.mpr (not_lt.mp hs)))

theorem insertOrderRow_spareParts (req : CreateOrderReq) (orderNumber : String)
    (db : DB) : (insertOrderRow req orderNumber db).spareParts = db.spareParts := rfl

theorem insertOrderRow_orderItems (req : CreateOrderReq) (orderNumber : String)
    (db : DB) : (insertOrderRow req orderNumber db).orderItems = db.orderItems := rfl

theorem createOrder_ok_body {req : CreateOrderReq} {orderNumber : String} {db : DB}
    {r : DB × Nat} (h : createOrder req orderNumber db = .ok r) :
    createOrderBody req orderNumber db = .ok r := by
  unfold createOrder at h
  by_cases hu : req.userId ∈ db.users
  · rw [if_pos hu] at h
    cases hc : req.carId with
    | none =>
      rw [hc] at h
      exact h
    | some cid =>
      rw [hc] at h
      dsimp only at h
      cases hl : lookupId cid db.cars with
      | none =>
        rw [hl] at h
        exact absurd h (by simp)
      | some car =>
        rw [hl] at h
        dsimp only at h
        by_cases hav : car.status = CarStatus.AVAILABLE
        · rw [if_pos hav] at h
          exact h
        · rw [if_neg hav] at h
          exact absurd h (by simp)
  · rw [if_neg hu] at h
    exact absurd h (by simp)

theorem createOrderBody_ok_items {req : CreateOrderReq} {orderNumber : String}
    {db db' : DB} {oid : Nat}
    (h : createOrderBody req orderNumber db = .ok (db', oid)) :
    ∃ newItems, db'.orderItems = db.orderItems ++ newItems ∧
      ∀ x ∈ newItems, x.totalPrice = x.unitPrice * (x.quantity : Int) - x.discount := by
  unfold createOrderBody at h
  cases hpi : processItems db.nextOrderId req.items (insertOrderRow req orderNumber db) with
  | error e =>
    rw [hpi] at h
    exact absurd h (by simp)
  | ok db2 =>
    rw [hpi] at h
    dsimp only at h
    obtain ⟨-, -, newItems, hitems, hprops⟩ :=
      processItems_ok_spec req.items _ db2 hpi
    rw [insertOrderRow_orderItems] at hitems
    have horderItems : db'.orderItems = db2.orderItems := by
      cases hc : req.carId with
      | none =>
        rw [hc] at h
        simp only [Except.ok.injEq, Prod.mk.injEq] at h
        rw [← h.1]
      | some cid =>
        rw [hc] at h
        simp only [Except.ok.injEq, Prod.mk.injEq] at h
        rw [← h.1]
    exact ⟨newItems, by rw [horderItems, hitems], fun x hx => (hprops x hx).2⟩

theorem createOrderBody_ok_stocksNonneg {req : CreateOrderReq} {orderNumber : String}
    {db db' : DB} {oid : Nat}
    (h : createOrderBody req orderNumber db = .ok (db', oid))
    (hn : stocksNonneg db) : stocksNonneg db' := by
  unfold createOrderBody at h
  cases hpi : processItems db.nextOrderId req.items (insertOrderRow req orderNumber db) with
  | error e =>
    rw [hpi] at h
    exact absurd h (by simp)
  | ok db2 =>
    rw [hpi] at h
    dsimp only at h
    have h2 : partsNonneg db2.spareParts :=
      processItems_ok_partsNonneg req.items _ db2 hpi
        (by rw [insertOrderRow_spareParts]; exact hn)
    cases hc : req.carId with
    | none =>
      rw [hc] at h
      simp only [Except.ok.injEq, Prod.mk.injEq] at h
      rw [← h.1]
      exact h2
    | some cid =>
      rw [hc] at h
      simp only [Except.ok.injEq, Prod.mk.injEq] at h
      rw [← h.1]
      exact h2

theorem createOrderBody_error_of_items {req : CreateOrderReq} {orderNumber : String}
    {db : DB}
    (hitems : (∃ it ∈ req.items, lookupId it.sparePartId db.spareParts = none) ∨
      (∃ it ∈ req.items, ∃ sp, lookupId it.sparePartId db.spareParts = some sp ∧
        sp.stock < (it.quantity : Int))) :
    ∃ e, createOrderBody req orderNumber db = .error e := by
  unfold createOrderBody
  cases hpi : processItems db.nextOrderId req.items (insertOrderRow req orderNumber db) with
  | error e => exact ⟨e, rfl⟩
  | ok db2 =>
    exfalso
    obtain ⟨-, hbounds, -⟩ := processItems_ok_spec req.items _ db2 hpi
    rcases hitems with ⟨it, hit, hnone⟩ | ⟨it, hit, sp, hsp, hlt⟩
    · obtain ⟨sp, hl, -⟩ := hbounds it hit
      rw [insertOrderRow_spareParts, hnone] at hl
      exact absurd hl (by simp)
    · obtain ⟨sp', hl, hge⟩ := hbounds it hit
      rw [insertOrderRow_spareParts, hsp] at hl
      injection hl with hl
      subst hl
      exact absurd hge (not_le.mpr hlt)

/-! ## Lemmas about `cancelOrder`, `updateOrderStatus`, `adjustStock` -/

theorem cancelOrder_ok_spareParts {id : Nat} {reason : Option String} {nowStr : String}
    {db db' : DB} (h : cancelOrder id reason nowStr db = .ok db') :
    db'.spareParts =
      bumpParts (db.orderItems.filter fun it => it.orderId = id) db.spareParts := by
  unfold cancelOrder at h
  cases hlook : lookupId id db.orders with
  | none =>
    rw [hlook] at h
    exact absurd h (by simp)
  | some order =>
    rw [hlook] at h
    dsimp only at h
    by_cases hterm : order.status = OrderStatus.DELIVERED ∨
        order.status = OrderStatus.CANCELLED
    · rw [if_pos hterm] at h
      exact absurd h (by simp)
    · rw [if_neg hterm] at h
      simp only [Except.ok.injEq] at h
      subst h
      cases hc : order.carId with
      | none => rfl
      | some cid =>
        dsimp only
        cases hcl : lookupId cid db.cars with
        | none => rfl
        | some car => rfl

theorem sideEffects_orders (id : Nat) (st : OrderStatus) (order : Order) (db : DB) :
    (orderStatusSideEffects id st order db).orders = db.orders := by
  unfold orderStatusSideEffects
  dsimp only
  split
  · show (restockOrderItems id _).orders = db.orders
    unfold restockOrderItems
    split
    · split
      · rfl
      · rfl
    · rfl
  · split
    · split
      · rfl
      · rfl
    · rfl

theorem sideEffects_orderItems (id : Nat) (st : OrderStatus) (order : Order)
    (db : DB) : (orderStatusSideEffects id st order db).orderItems = db.orderItems := by
  unfold orderStatusSideEffects
  dsimp only
  split
  · show (restockOrderItems id _).orderItems = db.orderItems
    unfold restockOrderItems
    split
    · split
      · rfl
      · rfl
    · rfl
  · split
    · split
      · rfl
      · rfl
    · rfl

theorem sideEffects_services (id : Nat) (st : OrderStatus) (order : Order)
    (db : DB) : (orderStatusSideEffects id st order db).services = db.services := by
  unfold orderStatusSideEffects
  dsimp only
  split
  · show (restockOrderItems id _).services = db.services
    unfold restockOrderItems
    split
    · split
      · rfl
      · rfl
    · rfl
  · split
    · split
      · rfl
      · rfl
    · rfl

theorem sideEffects_spareParts (id : Nat) (st : OrderStatus) (order : Order)
    (db : DB) :
    (orderStatusSideEffects id st order db).spareParts = db.spareParts ∨
      (orderStatusSideEffects id st order db).spareParts =
        bumpParts (db.orderItems.filter fun it => it.orderId = id) db.spareParts := by
  unfold orderStatusSideEffects
  dsimp only
  split
  · refine Or.inr ?_
    show (restockOrderItems id _).spareParts = _
    unfold restockOrderItems
    split
    · split
      · rfl
      · rfl
    · rfl
  · refine Or.inl ?_
    split
    · split
      · rfl
      · rfl
    · rfl

theorem sideEffects_spareParts_of_not_restock (id : Nat) (st : OrderStatus)
    (order : Order) (db : DB)
    (h : ¬(st = OrderStatus.CANCELLED ∧
      (order.status = OrderStatus.PENDING ∨ order.status = OrderStatus.PROCESSING))) :
    (orderStatusSideEffects id st order db).spareParts = db.spareParts := by
  unfold orderStatusSideEffects
  dsimp only
  rw [if_neg h]
  split
  · split
    · rfl
    · rfl
  · rfl

theorem updateOrderStatus_ok_spareParts {id : Nat} {req : UpdateOrderStatusReq}
    {nowStr : String} {db db' : DB}
    (h : updateOrderStatus id req nowStr db = .ok db') :
    db'.spareParts = db.spareParts ∨
      db'.spareParts =
        bumpParts (db.orderItems.filter fun it => it.orderId = id) db.spareParts := by
  unfold updateOrderStatus at h
  cases hlook : lookupId id db.orders with
  | none =>
    rw [hlook] at h
    exact absurd h (by simp)
  | some order =>
    rw [hlook] at h
    dsimp only at h
    simp only [Except.ok.injEq] at h
    subst h
    cases hst : req.status with
    | none => exact Or.inl rfl
    | some st =>
      dsimp only
      by_cases hne : st ≠ order.status
      · rw [if_pos hne]
        exact sideEffects_spareParts id st order db
      · rw [if_neg hne]
        exact Or.inl rfl

theorem adjustStock_ok_partsNonneg {id : Nat} {quantity : Int}
    {operation : StockOperation} {db db' : DB}
    (h : adjustStock id quantity operation db = .ok db')
    (hn : stocksNonneg db) : partsNonneg db'.spareParts := by
  unfold adjustStock at h
  by_cases hq : quantity ≤ 0
  · rw [if_pos hq] at h
    exact absurd h (by simp)
  · rw [if_neg hq] at h
    cases hl : lookupId id db.spareParts with
    | none =>
      rw [hl] at h
      exact absurd h (by simp)
    | some sp =>
      rw [hl] at h
      dsimp only at h
      have hsp : 0 ≤ sp.stock := hn _ (lookupId_mem hl)
      cases operation with
      | add =>
        simp only [Except.ok.injEq] at h
        subst h
        exact partsNonneg_setId hn (by dsimp only; omega)
      | subtract =>
        by_cases hlt : sp.stock < quantity
        · rw [if_pos hlt] at h
          exact absurd h (by simp)
        · rw [if_neg hlt] at h
          simp only [Except.ok.injEq] at h
          subst h
          exact partsNonneg_setId hn (by dsimp only; omega)

theorem stocksNonneg_applyOp (op : EngineOp) (db : DB) (hn : stocksNonneg db) :
    stocksNonneg (applyOp op db) := by
  cases op with
  | createOrder req orderNumber =>
    show stocksNonneg (runCreateOrder req orderNumber db)
    unfold runCreateOrder
    cases h : createOrder req orderNumber db with
    | error e => exact hn
    | ok r =>
      obtain ⟨db', oid⟩ := r
      exact createOrderBody_ok_stocksNonneg (createOrder_ok_body h) hn
  | updateOrderStatus id req nowStr =>
    show stocksNonneg (runUpdateOrderStatus id req nowStr db)
    unfold runUpdateOrderStatus
    cases h : updateOrderStatus id req nowStr db with
    | error e => exact hn
    | ok db' =>
      rcases updateOrderStatus_ok_spareParts h with hsp | hsp
      · unfold stocksNonneg
        rw [hsp]
        exact hn
      · unfold stocksNonneg
        rw [hsp]
        exact partsNonneg_bumpParts _ _ hn
  | cancelOrder id reason nowStr =>
    show stocksNonneg (runCancelOrder id reason nowStr db)
    unfold runCancelOrder
    cases h : cancelOrder id reason nowStr db with
    | error e => exact hn
    | ok db' =>
      unfold stocksNonneg
      rw [cancelOrder_ok_spareParts h]
      exact partsNonneg_bumpParts _ _ hn
  | adjustStock id quantity operation =>
    show stocksNonneg (runAdjustStock id quantity operation db)
    unfold runAdjustStock
    cases h : adjustStock id quantity operation db with
    | error e => exact hn
    | ok db' => exact adjustStock_ok_partsNonneg h hn

theorem stocksNonneg_foldl :
    ∀ (ops : List EngineOp) (db : DB), stocksNonneg db →
      stocksNonneg (ops.foldl (fun d o => applyOp o d) db)
  | [], _, hn => hn
  | op :: rest, db, hn =>
    stocksNonneg_foldl rest _ (stocksNonneg_applyOp op db hn)

theorem lookup_setId_of_lookup {k : Nat} {l : List (Nat × α)} {v w : α}
    (h : lookupId k l = some w) : lookupId k (setId k v l) = some v := by
  rw [lookupId_setId_self, h]
  rfl

theorem lookup_bumpParts_of_lookup {pid : Nat} {parts : List (Nat × SparePart)}
    {sp : SparePart} (items : List OrderItem) (h : lookupId pid parts = some sp) :
    lookupId pid (bumpParts items parts) =
      some { sp with stock := sp.stock + itemsQty pid items } := by
  rw [lookupId_bumpParts, h]
  rfl

theorem updatedOrderRow_frame (req : UpdateOrderStatusReq) (nowStr : String)
    (order : Order) :
    (updatedOrderRow req nowStr order).orderNumber = order.orderNumber ∧
    (updatedOrderRow req nowStr order).userId = order.userId ∧
    (updatedOrderRow req nowStr order).carId = order.carId ∧
    (updatedOrderRow req nowStr order).totalAmount = order.totalAmount ∧
    (updatedOrderRow req nowStr order).discountAmount = order.discountAmount ∧
    (updatedOrderRow req nowStr order).taxAmount = order.taxAmount ∧
    (updatedOrderRow req nowStr order).shippingCost = order.shippingCost ∧
    (req.notes = none → (updatedOrderRow req nowStr order).notes = order.notes) ∧
    (∀ n, req.notes = some n →
      (updatedOrderRow req nowStr order).notes =
        some (appendNote order.notes nowStr n)) ∧
    (∀ n old, req.notes = some n → order.notes = some old →
      (updatedOrderRow req nowStr order).notes =
        some (old ++ "\n\n" ++ nowStr ++ ": " ++ n)) := by
  refine ⟨rfl, rfl, rfl, rfl, rfl, rfl, rfl, ?_, ?_, ?_⟩
  · intro hn
    simp [updatedOrderRow, hn]
  · intro n hn
    simp [updatedOrderRow, hn]
  · intro n old hn hold
    simp [updatedOrderRow, hn, hold, appendNote]

/-! ## Claim theorems -/

/-- C1: `CreateOrder` fails whenever the user does not exist, the
referenced car does not exist or is not AVAILABLE, a referenced spare part
does not exist, or an item's quantity exceeds that part's current stock;
and every failing call (including a stock failure on a later item) leaves
the whole store — stocks, car statuses, orders and order items —
unchanged, because the transaction rolls back. -/
theorem c1_createOrder_failure_and_rollback (req : CreateOrderReq)
    (orderNumber : String) (db : DB) :
    (createOrderFailure req db → ∃ e, createOrder req orderNumber db = .error e) ∧
    (∀ e, createOrder req orderNumber db = .error e →
      runCreateOrder req orderNumber db = db) := by
  constructor
  · intro hfail
    unfold createOrder
    by_cases hu : req.userId ∈ db.users
    · rw [if_pos hu]
      cases hc : req.carId with
      | none =>
        dsimp only
        apply createOrderBody_error_of_items
        rcases hfail with h | ⟨cid, hcid, -⟩ | ⟨cid, car, hcid, -, -⟩ | h | h
        · exact absurd hu h
        · rw [hc] at hcid
          exact absurd hcid (by simp)
        · rw [hc] at hcid
          exact absurd hcid (by simp)
        · exact Or.inl h
        · exact Or.inr h
      | some cid =>
        dsimp only
        cases hl : lookupId cid db.cars with
        | none => exact ⟨ApiError.notFoundError "Car not found", rfl⟩
        | some car =>
          dsimp only
          by_cases hav : car.status = CarStatus.AVAILABLE
          · rw [if_pos hav]
            apply createOrderBody_error_of_items
            rcases hfail with h | ⟨cid', hcid, hl'⟩ | ⟨cid', car', hcid, hl', hst⟩ | h | h
            · exact absurd hu h
            · rw [hc] at hcid
              injection hcid with hcid
              subst hcid
              rw [hl] at hl'
              exact absurd hl' (by simp)
            · rw [hc] at hcid
              injection hcid with hcid
              subst hcid
              rw [hl] at hl'
              injection hl' with hl'
              subst hl'
              exact absurd hav hst
            · exact Or.inl h
            · exact Or.inr h
          · rw [if_neg hav]
            exact ⟨_, rfl⟩
    · rw [if_neg hu]
      exact ⟨_, rfl⟩
  · intro e he
    unfold runCreateOrder
    rw [he]

/-- C1 witness: a request asking for 3 units of a part with stock 2
satisfies the failure condition, fails, and leaves the store unchanged. -/
theorem c1_witness :
    createOrderFailure reqW1 dbW1 ∧
    (∃ e, createOrder reqW1 "ORD-1" dbW1 = .error e) ∧
    runCreateOrder reqW1 "ORD-1" dbW1 = dbW1 := by
  have h := c1_createOrder_failure_and_rollback reqW1 "ORD-1" dbW1
  have hfail : createOrderFailure reqW1 dbW1 := by
    refine Or.inr (Or.inr (Or.inr (Or.inr ?_)))
    exact ⟨⟨7, 3, 10, none⟩, by decide, ⟨"Oil Filter", 2, 5⟩, by decide, by decide⟩
  obtain ⟨e, he⟩ := h.1 hfail
  exact ⟨hfail, ⟨e, he⟩, h.2 e he⟩

/-- C2 (code bug): the claimed car-reservation invariant fails in both
directions.  Cancelling PENDING order 1 through `updateOrderStatus` turns
the order CANCELLED but leaves its RESERVED car RESERVED forever — the
restore branch is guarded by `previousStatus === 'RESERVED'`, which
compares the order's previous status against a car-status literal and can
never hold.  And `cancelOrder` on order 2, whose car is in MAINTENANCE,
sets that car to AVAILABLE unconditionally. -/
theorem c2_car_reservation_invariant_fails :
    (lookupId 1 (runUpdateOrderStatus 1
        ⟨some OrderStatus.CANCELLED, none, none, none⟩ "T1" dbC2).orders).map
        Order.status = some OrderStatus.CANCELLED ∧
    (lookupId 1 (runUpdateOrderStatus 1
        ⟨some OrderStatus.CANCELLED, none, none, none⟩ "T1" dbC2).cars).map
        Car.status = some CarStatus.RESERVED ∧
    (lookupId 1 dbC2m.cars).map Car.status = some CarStatus.MAINTENANCE ∧
    (lookupId 2 (runCancelOrder 2 none "T1" dbC2m).orders).map
        Order.status = some OrderStatus.CANCELLED ∧
    (lookupId 1 (runCancelOrder 2 none "T1" dbC2m).cars).map
        Car.status = some CarStatus.AVAILABLE := by
  decide

/-- C3 (code bug): updating PENDING order 1 to CANCELLED restores part 7's
stock (2 back to 5) but leaves the car that was RESERVED due to this order
RESERVED instead of returning it to AVAILABLE (the dead
`previousStatus === 'RESERVED'` guard). -/
theorem c3_cancel_restocks_but_never_restores_car :
    (lookupId 7 (runUpdateOrderStatus 1
        ⟨some OrderStatus.CANCELLED, none, none, none⟩ "T2" dbC3).spareParts).map
        SparePart.stock = some 5 ∧
    (lookupId 1 (runUpdateOrderStatus 1
        ⟨some OrderStatus.CANCELLED, none, none, none⟩ "T2" dbC3).cars).map
        Car.status = some CarStatus.RESERVED := by
  decide

/-- C4: spare-part stock never goes negative: every single engine
operation (`CreateOrder`, `UpdateOrderStatus`, `CancelOrder`,
`AdjustStock`), and every sequence of them, preserves non-negativity of
all stocks, whether it succeeds or fails. -/
theorem c4_stock_never_negative (db : DB) (op : EngineOp) (ops : List EngineOp) :
    (stocksNonneg db → stocksNonneg (applyOp op db)) ∧
    (stocksNonneg db → stocksNonneg (ops.foldl (fun d o => applyOp o d) db)) :=
  ⟨stocksNonneg_applyOp op db, stocksNonneg_foldl ops db⟩

/-- C4 witness: a store with stock 3 stays non-negative under one
operation and under a subtract-then-add sequence. -/
theorem c4_witness :
    stocksNonneg dbW4 ∧
    stocksNonneg (applyOp (EngineOp.adjustStock 5 2 StockOperation.subtract) dbW4) ∧
    stocksNonneg (opsW4.foldl (fun d o => applyOp o d) dbW4) := by
  have h := c4_stock_never_negative dbW4
    (EngineOp.adjustStock 5 2 StockOperation.subtract) opsW4
  have hn : stocksNonneg dbW4 := by
    unfold stocksNonneg partsNonneg
    decide
  exact ⟨hn, h.1 hn, h.2 hn⟩

/-- C9: every order item created by a successful `CreateOrder` stores
`totalPrice = unitPrice * quantity - discount`, computed exactly from the
item's own unit price, quantity and (defaulted) discount. -/
theorem c9_totalPrice_formula (req : CreateOrderReq) (orderNumber : String)
    (db db' : DB) (oid : Nat) (h : createOrder req orderNumber db = .ok (db', oid)) :
    ∃ newItems, db'.orderItems = db.orderItems ++ newItems ∧
      ∀ x ∈ newItems, x.totalPrice = x.unitPrice * (x.quantity : Int) - x.discount :=
  createOrderBody_ok_items (createOrder_ok_body h)

/-- C5: `cancelOrder` fails with an invalid-state error, leaving the store
unchanged, exactly when the order is already DELIVERED or CANCELLED;
otherwise it succeeds: the order becomes CANCELLED with a timestamped
cancellation note appended, the referenced car (when present and existing)
becomes AVAILABLE, and every spare part's stock grows by the total
quantity this order's items booked against it. -/
theorem c5_cancelOrder_spec (id : Nat) (reason : Option String) (nowStr : String)
    (db : DB) (order : Order) (horder : lookupId id db.orders = some order) :
    ((order.status = OrderStatus.DELIVERED ∨ order.status = OrderStatus.CANCELLED) →
      (∃ m, cancelOrder id reason nowStr db = .error (.invalidStateError m)) ∧
      runCancelOrder id reason nowStr db = db) ∧
    (¬(order.status = OrderStatus.DELIVERED ∨ order.status = OrderStatus.CANCELLED) →
      ∃ db', cancelOrder id reason nowStr db = .ok db' ∧
        (∃ order', lookupId id db'.orders = some order' ∧
          order'.status = OrderStatus.CANCELLED ∧
          (order.notes = none →
            order'.notes = some ("CANCELLED on " ++ nowStr ++ ": " ++
              reason.getD "No reason provided")) ∧
          (∀ old, order.notes = some old →
            order'.notes = some (old ++ "\n\n" ++ ("CANCELLED on " ++ nowStr ++ ": " ++
              reason.getD "No reason provided")))) ∧
        (∀ cid car, order.carId = some cid → lookupId cid db.cars = some car →
          lookupId cid db'.cars = some { car with status := CarStatus.AVAILABLE }) ∧
        (∀ pid sp, lookupId pid db.spareParts = some sp →
          lookupId pid db'.spareParts = some { sp with
            stock := sp.stock +
              itemsQty pid (db.orderItems.filter fun it => it.orderId = id) })) := by
  constructor
  · intro hterm
    have herr : cancelOrder id reason nowStr db = .error (.invalidStateError
        ("Cannot cancel an order that is already " ++ order.status.asString)) := by
      unfold cancelOrder
      rw [horder]
      dsimp only
      rw [if_pos hterm]
    refine ⟨⟨_, herr⟩, ?_⟩
    unfold runCancelOrder
    rw [herr]
  · intro hterm
    unfold cancelOrder
    rw [horder]
    dsimp only
    rw [if_neg hterm]
    refine ⟨_, rfl, ?_, ?_, ?_⟩
    · split
      · split
        · exact ⟨_, lookup_setId_of_lookup horder, rfl,
            fun hnone => by rw [hnone], fun old hold => by rw [hold]⟩
        · exact ⟨_, lookup_setId_of_lookup horder, rfl,
            fun hnone => by rw [hnone], fun old hold => by rw [hold]⟩
      · exact ⟨_, lookup_setId_of_lookup horder, rfl,
          fun hnone => by rw [hnone], fun old hold => by rw [hold]⟩
    · intro cid car hcid hcar
      rw [hcid]
      dsimp only
      rw [hcar]
      dsimp only
      show lookupId cid
        (mapId cid (fun c => { c with status := CarStatus.AVAILABLE }) db.cars) =
          some { car with status := CarStatus.AVAILABLE }
      rw [lookupId_mapId_self, hcar]
      rfl
    · intro pid sp hsp
      split
      · split
        · exact lookup_bumpParts_of_lookup _ hsp
        · exact lookup_bumpParts_of_lookup _ hsp
      · exact lookup_bumpParts_of_lookup _ hsp

/-- C5 witness: cancelling DELIVERED order 8 fails and changes nothing;
cancelling PROCESSING order 9 succeeds, sets its RESERVED car AVAILABLE
and restores part 4's stock from 1 to 3. -/
theorem c5_witness :
    (∃ m, cancelOrder 8 none "T5" dbW5d = .error (.invalidStateError m)) ∧
    runCancelOrder 8 none "T5" dbW5d = dbW5d ∧
    (∃ db', cancelOrder 9 none "T5" dbW5 = .ok db' ∧
      lookupId 3 db'.cars = some ⟨CarStatus.AVAILABLE⟩ ∧
      lookupId 4 db'.spareParts = some ⟨"Spark Plug Set", 3, 5⟩) := by
  have h1 := c5_cancelOrder_spec 8 none "T5" dbW5d
    { baseOrder with status := OrderStatus.DELIVERED } rfl
  have h2 := c5_cancelOrder_spec 9 none "T5" dbW5
    { baseOrder with carId := some 3, status := OrderStatus.PROCESSING } rfl
  obtain ⟨⟨m, herr⟩, hrun⟩ := h1.1 (Or.inl rfl)
  obtain ⟨db', hok, -, hcar, hstock⟩ := h2.2 (by simp)
  refine ⟨⟨m, herr⟩, hrun, db', hok, ?_, ?_⟩
  · exact hcar 3 ⟨CarStatus.RESERVED⟩ rfl rfl
  · exact hstock 4 ⟨"Spark Plug Set", 1, 5⟩ rfl

/-- C6: `updateOrderStatus` with a requested status equal to the order's
current status changes no spare-part stock and no car status (the side
effects run only when the status actually changes). -/
theorem c6_idempotent_same_target (id : Nat) (req : UpdateOrderStatusReq)
    (nowStr : String) (db : DB) (order : Order)
    (horder : lookupId id db.orders = some order)
    (hst : req.status = some order.status) :
    ∃ db', updateOrderStatus id req nowStr db = .ok db' ∧
      db'.spareParts = db.spareParts ∧ db'.cars = db.cars := by
  unfold updateOrderStatus
  rw [horder]
  dsimp only
  rw [hst]
  dsimp only
  rw [if_neg (by simp : ¬order.status ≠ order.status)]
  exact ⟨_, rfl, rfl, rfl⟩

/-- C6 witness: re-delivering the already-DELIVERED order 6 changes no
stock and no car status. -/
theorem c6_witness :
    ∃ db', updateOrderStatus 6 ⟨some OrderStatus.DELIVERED, none, none, none⟩
        "T6" dbW6 = .ok db' ∧
      db'.spareParts = dbW6.spareParts ∧ db'.cars = dbW6.cars :=
  c6_idempotent_same_target 6 ⟨some OrderStatus.DELIVERED, none, none, none⟩ "T6"
    dbW6 { baseOrder with carId := some 2, status := OrderStatus.DELIVERED } rfl rfl

/-- C10 (frame): `updateOrderStatus` changes only status, paymentStatus,
trackingNumber and notes on the order row (notes only by appending a
timestamped entry, never overwriting), keeps orderNumber, userId, carId,
totalAmount, discountAmount, taxAmount, shippingCost and the set of order
items unchanged, and changes no spare-part stock except through the
CANCELLED restock branch. -/
theorem c10_updateOrderStatus_frame (id : Nat) (req : UpdateOrderStatusReq)
    (nowStr : String) (db : DB) (order : Order)
    (horder : lookupId id db.orders = some order) :
    ∃ db', updateOrderStatus id req nowStr db = .ok db' ∧
      db'.orderItems = db.orderItems ∧
      (∃ order', lookupId id db'.orders = some order' ∧
        order'.orderNumber = order.orderNumber ∧
        order'.userId = order.userId ∧
        order'.carId = order.carId ∧
        order'.totalAmount = order.totalAmount ∧
        order'.discountAmount = order.discountAmount ∧
        order'.taxAmount = order.taxAmount ∧
        order'.shippingCost = order.shippingCost ∧
        (req.notes = none → order'.notes = order.notes) ∧
        (∀ n, req.notes = some n →
          order'.notes = some (appendNote order.notes nowStr n)) ∧
        (∀ n old, req.notes = some n → order.notes = some old →
          order'.notes = some (old ++ "\n\n" ++ nowStr ++ ": " ++ n))) ∧
      (¬(req.status = some OrderStatus.CANCELLED ∧
          (order.status = OrderStatus.PENDING ∨
            order.status = OrderStatus.PROCESSING)) →
        db'.spareParts = db.spareParts) := by
  unfold updateOrderStatus
  rw [horder]
  dsimp only
  cases hst : req.status with
  | none =>
    refine ⟨_, rfl, rfl, ?_, fun _ => rfl⟩
    exact ⟨updatedOrderRow req nowStr order, lookup_setId_of_lookup horder,
      updatedOrderRow_frame req nowStr order⟩
  | some st =>
    dsimp only
    by_cases hne : st ≠ order.status
    · rw [if_pos hne]
      refine ⟨_, rfl, sideEffects_orderItems id st order db, ?_, ?_⟩
      · refine ⟨updatedOrderRow req nowStr order, ?_,
          updatedOrderRow_frame req nowStr order⟩
        rw [sideEffects_orders]
        exact lookup_setId_of_lookup horder
      · intro hno
        apply sideEffects_spareParts_of_not_restock
        intro ⟨hc1, hc2⟩
        exact hno ⟨by rw [hc1], hc2⟩
    · rw [if_neg hne]
      refine ⟨_, rfl, rfl, ?_, fun _ => rfl⟩
      exact ⟨updatedOrderRow req nowStr order, lookup_setId_of_lookup horder,
        updatedOrderRow_frame req nowStr order⟩

/-- C10 witness: shipping order 5 with payment, tracking and a note keeps
its items and the stock table, preserves the order's identity columns, and
appends to (rather than overwrites) its notes. -/
theorem c10_witness :
    ∃ db', updateOrderStatus 5 reqW10 "T10" dbW10 = .ok db' ∧
      db'.orderItems = dbW10.orderItems ∧
      (∃ order', lookupId 5 db'.orders = some order' ∧
        order'.orderNumber = "ORD-00000000-000" ∧
        order'.notes = some ("first note" ++ "\n\n" ++ "T10" ++ ": " ++
          "on its way")) := by
  obtain ⟨db', hok, hitems, ⟨order', hlook, hnum, -, -, -, -, -, -, -, -, hnotes⟩, -⟩ :=
    c10_updateOrderStatus_frame 5 reqW10 "T10" dbW10
      { baseOrder with carId := some 4, notes := some "first note" } rfl
  exact ⟨db', hok, hitems, order', hlook, hnum,
    hnotes "on its way" "first note" rfl rfl⟩

/-- C9 witness: a successful concrete order (two items, one discounted)
whose created items satisfy the price formula. -/
theorem c9_witness :
    ∃ newItems,
      (runCreateOrder reqW9 "ORD-9" dbW9).orderItems = dbW9.orderItems ++ newItems ∧
      ∀ x ∈ newItems, x.totalPrice = x.unitPrice * (x.quantity : Int) - x.discount := by
  have hok : createOrder reqW9 "ORD-9" dbW9 =
      .ok (runCreateOrder reqW9 "ORD-9" dbW9, 1) := by rfl
  exact c9_totalPrice_formula reqW9 "ORD-9" dbW9 _ 1 hok

/-- C7 counterexample: `createService` accepts the request-supplied
status (the route validator admits all four), so a service can be created
directly in COMPLETED — it does not start in SCHEDULED. -/
theorem c7_counterexample :
    createdServiceStatus reqC7x 0 dbSvc = some ServiceStatus.COMPLETED := by
  decide

/-- C7 (amended): the service state machine allows exactly
SCHEDULED→{IN_PROGRESS, CANCELLED} and IN_PROGRESS→{COMPLETED, CANCELLED};
every other requested transition fails with an error naming the current
and requested states and leaves the store unchanged; and a created service
starts in SCHEDULED when the creation request supplies no status (the
endpoint accepts any of the four statuses as an initial value). -/
theorem c7_service_state_machine :
    (∀ cur next : ServiceStatus, next ∈ validTransitions cur ↔
      ((cur = ServiceStatus.SCHEDULED ∧
          (next = ServiceStatus.IN_PROGRESS ∨ next = ServiceStatus.CANCELLED)) ∨
        (cur = ServiceStatus.IN_PROGRESS ∧
          (next = ServiceStatus.COMPLETED ∨ next = ServiceStatus.CANCELLED)))) ∧
    (∀ (req : CreateServiceReq) (now : Int) (db db' : DB) (sid : Nat),
      req.status = none → createService req now db = .ok (db', sid) →
      ∃ sv, db'.services = db.services ++ [(sid, sv)] ∧
        sv.status = ServiceStatus.SCHEDULED) ∧
    (∀ (id : Nat) (req : UpdateServiceReq) (now : Int) (nowStr : String) (db : DB)
        (sv : Service) (st : ServiceStatus),
      lookupId id db.services = some sv →
      req.scheduledDate = none → req.serviceTypeId = none → req.status = some st →
      (st ∈ validTransitions sv.status →
        ∃ db', updateService id req now nowStr db = .ok db' ∧
          ∃ sv', lookupId id db'.services = some sv' ∧ sv'.status = st) ∧
      (st ∉ validTransitions sv.status →
        updateService id req now nowStr db =
          .error (.invalidTransitionError sv.status st) ∧
        runUpdateService id req now nowStr db = db)) := by
  refine ⟨?_, ?_, ?_⟩
  · intro cur next
    cases cur <;> cases next <;> decide
  · intro req now db db' sid hst h
    unfold createService at h
    by_cases hu : req.userId ∈ db.users
    · rw [if_pos hu] at h
      cases hc : lookupId req.carId db.cars with
      | none =>
        rw [hc] at h
        exact absurd h (by simp)
      | some car =>
        rw [hc] at h
        dsimp only at h
        cases ht : lookupId req.serviceTypeId db.serviceTypes with
        | none =>
          rw [ht] at h
          exact absurd h (by simp)
        | some stype =>
          rw [ht] at h
          dsimp only at h
          by_cases hpast : req.scheduledDate < now
          · rw [if_pos hpast] at h
            exact absurd h (by simp)
          · rw [if_neg hpast] at h
            by_cases hany : (db.services.any fun p =>
                conflictsAt req.scheduledDate p.2) = true
            · rw [if_pos hany] at h
              exact absurd h (by simp)
            · rw [if_neg hany] at h
              simp only [Except.ok.injEq, Prod.mk.injEq] at h
              obtain ⟨hdb, hsid⟩ := h
              subst hdb
              subst hsid
              refine ⟨_, rfl, ?_⟩
              show req.status.getD ServiceStatus.SCHEDULED = ServiceStatus.SCHEDULED
              rw [hst]
              rfl
    · rw [if_neg hu] at h
      exact absurd h (by simp)
  · intro id req now nowStr db sv st hlook hsched htype hst
    unfold updateService
    rw [hlook]
    dsimp only
    rw [hsched, htype, hst]
    dsimp only
    constructor
    · intro hmem
      rw [if_pos hmem]
      refine ⟨_, rfl, _, lookup_setId_of_lookup hlook, ?_⟩
      show req.status.getD sv.status = st
      rw [hst]
      rfl
    · intro hmem
      rw [if_neg hmem]
      refine ⟨rfl, ?_⟩
      unfold runUpdateService updateService
      rw [hlook]
      dsimp only
      rw [hsched, htype, hst]
      dsimp only
      rw [if_neg hmem]
      rfl

/-- C7 witness: in a concrete store, service 2 (SCHEDULED) moves to
IN_PROGRESS, a direct SCHEDULED→COMPLETED request fails naming both
states and changes nothing, and a creation request without a status
yields a SCHEDULED appointment. -/
theorem c7_witness :
    (∃ db', updateService 2 reqW7 0 "T7" dbW7 = .ok db' ∧
      ∃ sv', lookupId 2 db'.services = some sv' ∧
        sv'.status = ServiceStatus.IN_PROGRESS) ∧
    (updateService 2 reqW7bad 0 "T7" dbW7 =
      .error (.invalidTransitionError ServiceStatus.SCHEDULED
        ServiceStatus.COMPLETED) ∧
      runUpdateService 2 reqW7bad 0 "T7" dbW7 = dbW7) ∧
    (∃ sv, dbW7c.services = dbSvc.services ++ [(1, sv)] ∧
      sv.status = ServiceStatus.SCHEDULED) := by
  have h := c7_service_state_machine
  have hrow : lookupId 2 dbW7.services = some (svcRow 5000) := rfl
  refine ⟨?_, ?_, ?_⟩
  · exact (h.2.2 2 reqW7 0 "T7" dbW7 _ ServiceStatus.IN_PROGRESS hrow rfl rfl rfl).1
      (by decide)
  · exact (h.2.2 2 reqW7bad 0 "T7" dbW7 _ ServiceStatus.COMPLETED hrow rfl rfl rfl).2
      (by decide)
  · exact h.2.1 reqW7c 0 dbSvc dbW7c 1 rfl (by rfl)

/-- C8 counterexample: a `createService` request at exactly `now`
(scheduledDate = now = 500, no other appointments) succeeds, while the
claim demands a ValidationError for every `scheduledDate ≤ now` — the
source checks `scheduledDateTime < new Date()` strictly. -/
theorem c8_counterexample :
    (createService reqC8x 500 dbSvc).isOk = true ∧
    reqC8x.scheduledDate = 500 := by
  decide

/-- C8 (amended): with user, car and service type existing,
`createService` fails with a ValidationError exactly when the scheduled
date is strictly before `now`; otherwise it fails with a ConflictError
exactly when some SCHEDULED or IN_PROGRESS service (anywhere in the
system) lies within the inclusive ±2-hour window of the requested time,
and succeeds otherwise. -/
theorem c8_createService_windows (req : CreateServiceReq) (now : Int) (db : DB)
    (car : Car) (stype : ServiceType)
    (hu : req.userId ∈ db.users)
    (hc : lookupId req.carId db.cars = some car)
    (ht : lookupId req.serviceTypeId db.serviceTypes = some stype) :
    (req.scheduledDate < now →
      ∃ m, createService req now db = .error (.validationError m)) ∧
    (now ≤ req.scheduledDate →
      ((∃ p ∈ db.services, conflictsAt req.scheduledDate p.2) →
        ∃ m, createService req now db = .error (.conflictError m)) ∧
      (¬(∃ p ∈ db.services, conflictsAt req.scheduledDate p.2) →
        ∃ r, createService req now db = .ok r)) := by
  unfold createService
  rw [if_pos hu, hc]
  dsimp only
  rw [ht]
  dsimp only
  constructor
  · intro hpast
    rw [if_pos hpast]
    exact ⟨_, rfl⟩
  · intro hge
    rw [if_neg (not_lt.mpr hge)]
    constructor
    · intro hconf
      obtain ⟨p, hp, hcp⟩ := hconf
      have hany : (db.services.any fun p => conflictsAt req.scheduledDate p.2) = true :=
        List.any_eq_true.mpr ⟨p, hp, decide_eq_true hcp⟩
      rw [if_pos hany]
      exact ⟨_, rfl⟩
    · intro hnone
      have hany : (db.services.any fun p => conflictsAt req.scheduledDate p.2) = false := by
        rw [List.any_eq_false]
        intro p hp
        simp only [decide_eq_true_eq]
        exact fun hcp => hnone ⟨p, hp, hcp⟩
      rw [if_neg (by rw [hany]; simp)]
      exact ⟨_, rfl⟩

/-- C8 witness: against a store with one SCHEDULED appointment at time
10000: a past date fails validation, a date 1000 ms away fails with a
conflict, and a date beyond the two-hour window succeeds. -/
theorem c8_witness :
    (∃ m, createService reqW8past 0 dbW8 = .error (.validationError m)) ∧
    (∃ m, createService reqW8conf 0 dbW8 = .error (.conflictError m)) ∧
    (∃ r, createService reqW8free 0 dbW8 = .ok r) := by
  have h1 := c8_createService_windows reqW8past 0 dbW8 ⟨CarStatus.AVAILABLE⟩ ⟨100⟩
    (by decide) rfl rfl
  have h2 := c8_createService_windows reqW8conf 0 dbW8 ⟨CarStatus.AVAILABLE⟩ ⟨100⟩
    (by decide) rfl rfl
  have h3 := c8_createService_windows reqW8free 0 dbW8 ⟨CarStatus.AVAILABLE⟩ ⟨100⟩
    (by decide) rfl rfl
  refine ⟨h1.1 (by decide), (h2.2 (by decide)).1 ?_, (h3.2 (by decide)).2 ?_⟩
  · refine ⟨(4, svcRow 10000), ?_, ?_⟩
    · decide
    · decide
  · decide

end Dealer
